import Mathlib

/-
Verification of the whyme-platform token/roster core.

The definitions below are a shallow embedding of the TypeScript source:
pure helpers (phone normalization, retry policy, guards) become Lean
functions; the Prisma-backed route handlers become pure transaction
functions over an explicit datastore state (`Db`), returning
`Except TxError (Db × result)` — an error models a thrown exception,
which rolls the transaction back (no state is produced).
Timestamps are naturals; `Option Nat` models nullable datetimes.
-/

namespace WhyMe

/-! ## Phone normalization (src/lib/phone.ts, src/unnamed/part_000) -/

/-- Embedding of value.replace of all non-digits with the empty string. -/
def normalizePhoneDigits (value : String) : String :=
  String.mk (value.data.filter Char.isDigit)

/-- Embedding of the TypeScript type string | null | undefined. -/
inductive StrOrNull where
  | undef : StrOrNull
  | nullv : StrOrNull
  | str (s : String) : StrOrNull
deriving DecidableEq

/-- Embedding of normalizeNullablePhone from src/lib/phone.ts. -/
def normalizeNullablePhone : StrOrNull → StrOrNull
  | .undef => .undef
  | .nullv => .nullv
  | .str value =>
      let digitsOnly := normalizePhoneDigits value
      if digitsOnly.length > 0 then .str digitsOnly else .nullv

/-! ## Serializable-retry policy (src/lib/api/retry.ts) -/

/-- Embedding of the shapes a JavaScript unknown error value can take,
as distinguished by isSerializationConflictError: a non-object (null,
string, number, ...), an object without a code field, an object whose
code field is a string, or an object whose code field is not a string. -/
inductive JsError where
  | nonObject : JsError
  | objNoCode : JsError
  | objCodeStr (code : String) : JsError
  | objCodeNonString : JsError
deriving DecidableEq

/-- Embedding of the module constant PRISMA_SERIALIZATION_CONFLICT. -/
def PRISMA_SERIALIZATION_CONFLICT : String := "P2034"

/-- Embedding of isSerializationConflictError from src/lib/api/retry.ts. -/
def isSerializationConflictError : JsError → Bool
  | .nonObject => false
  | .objNoCode => false
  | .objCodeStr code => code == PRISMA_SERIALIZATION_CONFLICT
  | .objCodeNonString => false

/-- Embedding of shouldRetrySerializableError from src/lib/api/retry.ts. -/
def shouldRetrySerializableError (error : JsError) (attempt maxRetries : Nat) : Bool :=
  isSerializationConflictError error && attempt < maxRetries

/-- Embedding of the route-level constant MAX_SERIALIZABLE_RETRIES. -/
def MAX_SERIALIZABLE_RETRIES : Nat := 2

end WhyMe

namespace WhyMe

/-! ## Errors thrown inside a transaction attempt -/

/-- Errors a transaction attempt can surface: a typed ApiStatusError
carrying a status and message, a store-reported serialization conflict
(Prisma known request error with code P2034), or any other exception. -/
inductive TxError where
  | api (status : Nat) (message : String) : TxError
  | conflict : TxError
  | generic : TxError
deriving DecidableEq

instance instDecEqExceptTx {ε α : Type} [DecidableEq ε] [DecidableEq α] :
    DecidableEq (Except ε α)
  | Except.error a, Except.error b =>
      match decEq a b with
      | isTrue h => isTrue (congrArg Except.error h)
      | isFalse h => isFalse (fun hc => h (Except.error.inj hc))
  | Except.error _, Except.ok _ => isFalse (fun hc => Except.noConfusion hc)
  | Except.ok _, Except.error _ => isFalse (fun hc => Except.noConfusion hc)
  | Except.ok a, Except.ok b =>
      match decEq a b with
      | isTrue h => isTrue (congrArg Except.ok h)
      | isFalse h => isFalse (fun hc => h (Except.ok.inj hc))

/-- View of a TxError as the JavaScript error value the catch blocks
inspect: only the store conflict error carries the code field P2034. -/
def txErrorToJsError : TxError → JsError
  | .conflict => .objCodeStr "P2034"
  | .api _ _ => .objNoCode
  | .generic => .objNoCode

/-- Retry predicate of the submit route, which calls
shouldRetrySerializableError(error, attempt, MAX_SERIALIZABLE_RETRIES). -/
def submitRetryPred (e : TxError) (attempt : Nat) : Bool :=
  shouldRetrySerializableError (txErrorToJsError e) attempt MAX_SERIALIZABLE_RETRIES

/-- Retry predicate inlined in member/update and invite/create: the error
is a Prisma known request error with code P2034 and attempts remain. -/
def inlineRetryPred (e : TxError) (attempt : Nat) : Bool :=
  (match e with | .conflict => true | _ => false) && attempt < MAX_SERIALIZABLE_RETRIES

/-- Outcome of the for-loop around the transaction: a result was produced
and the loop broke out, an error was rethrown past the loop, or the loop
ran out of iterations with the result variable still null. -/
inductive LoopOutcome (α : Type) where
  | success (a : α) : LoopOutcome α
  | thrown (e : TxError) : LoopOutcome α
  | exhausted : LoopOutcome α
deriving DecidableEq

/-- Embedding of the retry for-loop from the given attempt with the given
number of iterations left: run the body; on success break with the
result; on an error that the retry predicate accepts, continue with the
next attempt; otherwise rethrow. -/
def runRetryFrom {α : Type} (retryP : TxError → Nat → Bool)
    (body : Nat → Except TxError α) : Nat → Nat → LoopOutcome α
  | _, 0 => .exhausted
  | attempt, fuel + 1 =>
      match body attempt with
      | .ok a => .success a
      | .error e =>
          if retryP e attempt then runRetryFrom retryP body (attempt + 1) fuel
          else .thrown e

/-- Embedding of the whole retry loop: attempts 0 through
MAX_SERIALIZABLE_RETRIES, i.e. MAX_SERIALIZABLE_RETRIES + 1 iterations. -/
def runRetryLoop {α : Type} (retryP : TxError → Nat → Bool)
    (body : Nat → Except TxError α) : LoopOutcome α :=
  runRetryFrom retryP body 0 (MAX_SERIALIZABLE_RETRIES + 1)

/-- Number of transaction attempts the loop actually makes, mirrored from
runRetryFrom. -/
def retryAttemptsFrom {α : Type} (retryP : TxError → Nat → Bool)
    (body : Nat → Except TxError α) : Nat → Nat → Nat
  | _, 0 => 0
  | attempt, fuel + 1 =>
      match body attempt with
      | .ok _ => 1
      | .error e =>
          if retryP e attempt then 1 + retryAttemptsFrom retryP body (attempt + 1) fuel
          else 1

/-- Number of transaction attempts made by the whole retry loop. -/
def retryLoopAttempts {α : Type} (retryP : TxError → Nat → Bool)
    (body : Nat → Except TxError α) : Nat :=
  retryAttemptsFrom retryP body 0 (MAX_SERIALIZABLE_RETRIES + 1)

end WhyMe

namespace WhyMe

/-! ## Data model (prisma schema rows used by the workflows) -/

/-- Purpose of an InviteLink. -/
inductive Purpose where
  | leader_only : Purpose
  | roster_entry : Purpose
deriving DecidableEq, BEq

/-- Roster status of a GroupPass. -/
inductive RosterStatus where
  | draft : RosterStatus
  | collecting : RosterStatus
  | locked : RosterStatus
deriving DecidableEq, BEq

/-- Status of a GroupMember. -/
inductive MemberStatus where
  | pending : MemberStatus
  | completed : MemberStatus
  | removed : MemberStatus
deriving DecidableEq, BEq

/-- An InviteLink row. -/
structure InviteLink where
  inviteId : Nat
  token : String
  groupId : Nat
  purpose : Purpose
  maxUses : Nat
  usedCount : Nat
  usedAt : Option Nat := none
  usedBy : Option String := none
  expiresAt : Option Nat := none
deriving DecidableEq

/-- A GroupPass row (the fields the four workflows read or write). -/
structure GroupPass where
  groupId : Nat
  rosterStatus : RosterStatus
  headcountDeclared : Option Nat := none
deriving DecidableEq

/-- A Child row. -/
structure Child where
  childId : Nat
  name : String
  grade : Option String := none
  priorStudentAttended : Option Bool := none
  siblingsPriorAttended : Option Bool := none
  parentPriorAttended : Option Bool := none
deriving DecidableEq

/-- A GroupMember row. -/
structure GroupMember where
  groupMemberId : Nat
  groupId : Nat
  childId : Nat
  parentName : Option String := none
  parentPhone : Option String := none
  noteToInstructor : Option String := none
  editToken : Option String := none
  status : MemberStatus
  createdAt : Nat
deriving DecidableEq

/-- The datastore state: the four tables plus a counter from which fresh
generated ids and uuid tokens are minted deterministically. -/
structure Db where
  invites : List InviteLink
  groups : List GroupPass
  children : List Child
  members : List GroupMember
  nextId : Nat
deriving DecidableEq

/-- Unique-key point lookup of an InviteLink by token. -/
def findInviteByToken (db : Db) (token : String) : Option InviteLink :=
  db.invites.find? (fun r => r.token == token)

/-- Point lookup of a GroupPass by id (the include-group join). -/
def findGroupById (db : Db) (gid : Nat) : Option GroupPass :=
  db.groups.find? (fun g => g.groupId == gid)

/-- Deterministic stand-in for a freshly generated uuid. -/
def mkToken (n : Nat) : String := String.append "tok-" (toString n)

/-! ## Atomic invite-token claim (tx.inviteLink.updateMany in
invite/submit) -/

/-- Row filter of the conditional claim update: same inviteId, usedCount
strictly below maxUses, and expiresAt null or strictly in the future. -/
def claimMatches (now inviteId : Nat) (r : InviteLink) : Bool :=
  r.inviteId == inviteId && r.usedCount < r.maxUses &&
    (match r.expiresAt with
     | none => true
     | some t => now < t)

/-- Data clause of the claim update: increment usedCount by one and stamp
usedAt and usedBy. -/
def applyClaim (now : Nat) (usedBy : String) (r : InviteLink) : InviteLink :=
  { r with usedCount := r.usedCount + 1, usedAt := some now, usedBy := some usedBy }

/-- Affected-row count the claim update reports. -/
def claimCount (now inviteId : Nat) (db : Db) : Nat :=
  (db.invites.filter (claimMatches now inviteId)).length

/-- State after the claim update: every matching row is claimed. -/
def claimUpdate (now inviteId : Nat) (usedBy : String) (db : Db) : Db :=
  { db with invites :=
      db.invites.map (fun r =>
        if claimMatches now inviteId r then applyClaim now usedBy r else r) }

/-- Embedding of assertInviteTokenClaimed from src/lib/api/guards.ts. -/
def assertInviteTokenClaimed (claimedCount : Nat) : Except TxError Unit :=
  if claimedCount = 0 then .error (.api 409 "Token already used") else .ok ()

/-- Embedding of assertMemberUpdateApplied from src/lib/api/guards.ts. -/
def assertMemberUpdateApplied (updatedCount : Nat) : Except TxError Unit :=
  if updatedCount = 0 then
    .error (.api 409 "Roster is locked. Modifications are not allowed.")
  else .ok ()

end WhyMe

namespace WhyMe

/-! ## Submit roster entry: the multi-student route (src/unnamed/part_010) -/

/-- Input of one student in the multi-student submit (zod
studentInputSchema). -/
structure StudentInput where
  childName : String
  childGrade : Option String := none
  priorStudentAttended : Option Bool := none
  siblingsPriorAttended : Option Bool := none
  parentPriorAttended : Option Bool := none
deriving DecidableEq

/-- Validated body of the multi-student submit (zod inviteSubmitSchema):
parentPhone is required, students holds one or two entries. -/
structure SubmitInput where
  token : String
  students : List StudentInput
  parentName : Option String := none
  parentPhone : String
  noteToInstructor : Option String := none
deriving DecidableEq

/-- Normalization x?.trim() || null applied to parentName and
noteToInstructor: absent stays absent and a blank trim collapses to null. -/
def normalizedOptionalText : Option String → Option String
  | none => none
  | some s =>
      let t := s.trim
      if t == "" then none else some t

/-- Filter of the existing-members-for-parent query: same group, same
normalized parent phone, status not removed. -/
def memberMatchesParent (gid : Nat) (phone : String) (m : GroupMember) : Bool :=
  m.groupId == gid && m.parentPhone == some phone && !(m.status == MemberStatus.removed)

/-- Filter of the active-member count: same group, status not removed. -/
def isActiveMemberOf (gid : Nat) (m : GroupMember) : Bool :=
  m.groupId == gid && !(m.status == MemberStatus.removed)

/-- Ordering relation of orderBy createdAt asc. -/
def createdAtLe (a b : GroupMember) : Prop := a.createdAt ≤ b.createdAt

instance : DecidableRel createdAtLe := fun a b => Nat.decLe a.createdAt b.createdAt

instance : IsTotal GroupMember createdAtLe :=
  ⟨fun a b => Nat.le_total a.createdAt b.createdAt⟩

instance : IsTrans GroupMember createdAtLe :=
  ⟨fun _ _ _ hab hbc => Nat.le_trans hab hbc⟩

/-- Embedding of orderBy createdAt asc. -/
def sortByCreatedAt (l : List GroupMember) : List GroupMember :=
  List.insertionSort createdAtLe l

/-- Count of the group's members whose status is not removed. -/
def activeMemberCount (db : Db) (gid : Nat) : Nat :=
  (db.members.filter (isActiveMemberOf gid)).length

/-- Data clause of tx.child.update for an in-place resubmission: the name
is always written; grade and the three flags are written only when
present (prisma skips undefined fields). -/
def applyChildUpdate (s : StudentInput) (c : Child) : Child :=
  { c with
    name := s.childName,
    grade := match s.childGrade with | some g => some g | none => c.grade,
    priorStudentAttended :=
      match s.priorStudentAttended with | some b => some b | none => c.priorStudentAttended,
    siblingsPriorAttended :=
      match s.siblingsPriorAttended with | some b => some b | none => c.siblingsPriorAttended,
    parentPriorAttended :=
      match s.parentPriorAttended with | some b => some b | none => c.parentPriorAttended }

/-- State after tx.child.update where childId matches. -/
def updateChildIn (db : Db) (cid : Nat) (s : StudentInput) : Db :=
  { db with children :=
      db.children.map (fun c => if c.childId == cid then applyChildUpdate s c else c) }

/-- Data clause of tx.groupMember.update for an in-place resubmission. -/
def applySubmitMemberUpdate (pn pnote : Option String) (phone tok : String)
    (m : GroupMember) : GroupMember :=
  { m with
    parentName := pn,
    parentPhone := some phone,
    noteToInstructor := pnote,
    editToken := some tok,
    status := MemberStatus.completed }

/-- The per-student loop of the multi-student submit: the i-th student is
paired with the i-th existing member; a paired student updates that
member's Child and GroupMember rows in place, reusing its editToken when
non-null and minting a fresh one otherwise; an unpaired student creates a
fresh Child and GroupMember. Returns the new state and the
(groupMemberId, editToken) list in submission order. -/
def processStudents (pn pnote : Option String) (phone : String) (gid : Nat) :
    List StudentInput → List GroupMember → Db → Db × List (Nat × String)
  | [], _, db => (db, [])
  | s :: ss, [], db =>
      let cid := db.nextId
      let newChild : Child :=
        { childId := cid, name := s.childName, grade := s.childGrade,
          priorStudentAttended := s.priorStudentAttended,
          siblingsPriorAttended := s.siblingsPriorAttended,
          parentPriorAttended := s.parentPriorAttended }
      let db1 : Db :=
        { db with children := db.children ++ [newChild], nextId := db.nextId + 1 }
      let tok := mkToken db1.nextId
      let mid := db1.nextId + 1
      let newMember : GroupMember :=
        { groupMemberId := mid, groupId := gid, childId := cid,
          parentName := pn, parentPhone := some phone, noteToInstructor := pnote,
          editToken := some tok, status := MemberStatus.completed, createdAt := mid }
      let db2 : Db :=
        { db1 with members := db1.members ++ [newMember], nextId := db1.nextId + 2 }
      let rest := processStudents pn pnote phone gid ss [] db2
      (rest.1, (mid, tok) :: rest.2)
  | s :: ss, em :: ems, db =>
      let db1 := updateChildIn db em.childId s
      let tok := match em.editToken with | some t => t | none => mkToken db1.nextId
      let db2 : Db :=
        match em.editToken with
        | some _ => db1
        | none => { db1 with nextId := db1.nextId + 1 }
      let db3 : Db :=
        { db2 with members :=
            db2.members.map (fun m =>
              if m.groupMemberId == em.groupMemberId then
                applySubmitMemberUpdate pn pnote phone tok m
              else m) }
      let rest := processStudents pn pnote phone gid ss ems db3
      (rest.1, (em.groupMemberId, tok) :: rest.2)

/-- State after the stale-member updateMany: every member whose id is in
the stale list is soft-deleted (status removed). -/
def removeStale (db : Db) (stale : List GroupMember) : Db :=
  { db with members :=
      db.members.map (fun m =>
        if stale.any (fun st => st.groupMemberId == m.groupMemberId) then
          { m with status := MemberStatus.removed }
        else m) }

/-- State after tx.groupPass.updateMany flipping draft to collecting. -/
def draftToCollecting (db : Db) (gid : Nat) : Db :=
  { db with groups :=
      db.groups.map (fun g =>
        if g.groupId == gid && g.rosterStatus == RosterStatus.draft then
          { g with rosterStatus := RosterStatus.collecting }
        else g) }

/-- Value returned by a successful submit transaction. -/
structure SubmitResult where
  groupId : Nat
  groupMemberIds : List Nat
  editTokens : List String
  currentCount : Nat
  submittedStudentCount : Nat
deriving DecidableEq

/-- Expiry test invite.expiresAt non-null and now strictly past it. -/
def inviteExpired (now : Nat) (expiresAt : Option Nat) : Bool :=
  match expiresAt with
  | some t => decide (t < now)
  | none => false

/-- The four precondition checks of the submit transaction, in source
order: token lookup (404), purpose (403), expiry (410), then the joined
group's lock state (409). A missing joined group surfaces as a generic
thrown error, as the null dereference would. -/
def submitChecks (now : Nat) (token : String) (db : Db) :
    Except TxError (InviteLink × GroupPass) :=
  match findInviteByToken db token with
  | none => .error (.api 404 "Invalid token")
  | some invite =>
      if invite.purpose ≠ Purpose.roster_entry then
        .error (.api 403 "Invalid token purpose")
      else if inviteExpired now invite.expiresAt then
        .error (.api 410 "Token expired")
      else
        match findGroupById db invite.groupId with
        | none => .error .generic
        | some group =>
            if group.rosterStatus = RosterStatus.locked then
              .error (.api 409 "Group roster is locked")
            else .ok (invite, group)

/-- True when headcountDeclared is non-null and the projected active
headcount exceeds it. -/
def submitHeadcountExceeded (declared : Option Nat) (projected : Int) : Bool :=
  match declared with
  | none => false
  | some d => projected > (d : Int)

/-- Domain writes of the submit transaction after claim and headcount
checks: process the students against the existing members, soft-delete
leftover existing members beyond the submitted count, flip draft to
collecting, and recount active members. -/
def submitWrites (pn pnote : Option String) (phone : String) (gid : Nat)
    (students : List StudentInput) (existing : List GroupMember) (db : Db) :
    Db × SubmitResult :=
  let made := processStudents pn pnote phone gid students existing db
  let db3 :=
    if existing.length > students.length then
      removeStale made.1 (existing.drop students.length)
    else made.1
  let db4 := draftToCollecting db3 gid
  let cnt := activeMemberCount db4 gid
  (db4,
   { groupId := gid,
     groupMemberIds := made.2.map (fun p => p.1),
     editTokens := made.2.map (fun p => p.2),
     currentCount := cnt,
     submittedStudentCount := students.length })

/-- The whole multi-student submit transaction from src/unnamed/part_010:
checks, atomic claim with zero-rows guard, resubmission detection by
normalized phone ordered by creation time, headcount projection, then the
domain writes. An error models a thrown exception, which rolls back the
attempt: no state is produced. -/
def inviteSubmitTx (now : Nat) (input : SubmitInput) (db : Db) :
    Except TxError (Db × SubmitResult) :=
  match submitChecks now input.token db with
  | .error e => .error e
  | .ok (invite, group) =>
      let phone := normalizePhoneDigits input.parentPhone
      let pn := normalizedOptionalText input.parentName
      let pnote := normalizedOptionalText input.noteToInstructor
      let claimed := claimCount now invite.inviteId db
      let db1 := claimUpdate now invite.inviteId (String.append "ParentPhone:" phone) db
      match assertInviteTokenClaimed claimed with
      | .error e => .error e
      | .ok _ =>
          let existing :=
            sortByCreatedAt (db1.members.filter (memberMatchesParent invite.groupId phone))
          let currentActive := activeMemberCount db1 invite.groupId
          let projected : Int :=
            (currentActive : Int) - (existing.length : Int) + (input.students.length : Int)
          if submitHeadcountExceeded group.headcountDeclared projected then
            .error (.api 409 "Group headcount exceeded")
          else
            .ok (submitWrites pn pnote phone invite.groupId input.students existing db1)

end WhyMe

namespace WhyMe

/-! ## Legacy single-student submit (src/unnamed/part_009) -/

/-- Validated body of the legacy single-student submit. -/
structure LegacySubmitInput where
  token : String
  childName : String
  childGrade : Option String := none
  priorStudentAttended : Option Bool := none
  siblingsPriorAttended : Option Bool := none
  parentPriorAttended : Option Bool := none
  parentName : Option String := none
  parentPhone : Option String := none
  noteToInstructor : Option String := none
deriving DecidableEq

/-- The legacy submit flow from src/unnamed/part_009: pre-checks (404,
403, 410, then usedCount at maxUses giving 409 Token already used, then
the lock giving 409), followed by a transaction that creates the Child
and GroupMember and increments usedCount unconditionally by inviteId.
Returns the new member id on success. Row lookups rely on the store's
foreign-key integrity for the joined group. -/
def inviteSubmitLegacy (now : Nat) (input : LegacySubmitInput) (db : Db) :
    Except TxError (Db × Nat) :=
  match findInviteByToken db input.token with
  | none => .error (.api 404 "Invalid token")
  | some invite =>
      if invite.purpose ≠ Purpose.roster_entry then
        .error (.api 403 "Invalid token purpose")
      else if inviteExpired now invite.expiresAt then
        .error (.api 410 "Token expired")
      else if invite.maxUses ≤ invite.usedCount then
        .error (.api 409 "Token already used")
      else
        match findGroupById db invite.groupId with
        | none => .error .generic
        | some group =>
            if group.rosterStatus = RosterStatus.locked then
              .error (.api 409 "Group roster is locked")
            else
              let cid := db.nextId
              let newChild : Child :=
                { childId := cid, name := input.childName, grade := input.childGrade,
                  priorStudentAttended := input.priorStudentAttended,
                  siblingsPriorAttended := input.siblingsPriorAttended,
                  parentPriorAttended := input.parentPriorAttended }
              let db1 : Db :=
                { db with children := db.children ++ [newChild], nextId := db.nextId + 1 }
              let tok := mkToken db1.nextId
              let mid := db1.nextId + 1
              let newMember : GroupMember :=
                { groupMemberId := mid, groupId := invite.groupId, childId := cid,
                  parentName := input.parentName,
                  parentPhone :=
                    (match input.parentPhone with
                     | some s => if s == "" then none else some s
                     | none => none),
                  noteToInstructor := input.noteToInstructor,
                  editToken := some tok, status := MemberStatus.completed,
                  createdAt := mid }
              let db2 : Db :=
                { db1 with members := db1.members ++ [newMember], nextId := db1.nextId + 2 }
              let db3 : Db :=
                { db2 with invites :=
                    db2.invites.map (fun r =>
                      if r.inviteId == invite.inviteId then
                        { r with usedCount := r.usedCount + 1, usedAt := some now,
                                 usedBy := some (String.append "Child:" input.childName) }
                      else r) }
              .ok (db3, mid)

end WhyMe

namespace WhyMe

/-! ## Update member (src/src/app/api/member/update/route.ts) -/

/-- Validated body of the member update: every updatable field is
independently optional; an absent field must not be written. -/
structure MemberUpdateInput where
  editToken : String
  childName : Option String := none
  childGrade : Option String := none
  priorStudentAttended : Option Bool := none
  siblingsPriorAttended : Option Bool := none
  parentPriorAttended : Option Bool := none
  parentName : Option String := none
  parentPhone : Option String := none
  noteToInstructor : Option String := none
deriving DecidableEq

/-- Point lookup of a GroupMember by its editToken. -/
def findMemberByEditToken (db : Db) (tok : String) : Option GroupMember :=
  db.members.find? (fun m => m.editToken == some tok)

/-- True when at least one Child field is present in the request, i.e.
childUpdateData would be non-empty. -/
def memberUpdateHasChildFields (input : MemberUpdateInput) : Bool :=
  input.childName.isSome || input.childGrade.isSome ||
    input.priorStudentAttended.isSome || input.siblingsPriorAttended.isSome ||
    input.parentPriorAttended.isSome

/-- True when at least one GroupMember field is present in the request,
i.e. memberUpdateData would be non-empty. -/
def memberUpdateHasMemberFields (input : MemberUpdateInput) : Bool :=
  input.parentName.isSome || input.parentPhone.isSome ||
    input.noteToInstructor.isSome

/-- Child data clause of the member update: only present fields are
written. -/
def applyMemberEditChildUpdate (input : MemberUpdateInput) (c : Child) : Child :=
  { c with
    name := match input.childName with | some v => v | none => c.name,
    grade := match input.childGrade with | some v => some v | none => c.grade,
    priorStudentAttended :=
      match input.priorStudentAttended with | some v => some v | none => c.priorStudentAttended,
    siblingsPriorAttended :=
      match input.siblingsPriorAttended with | some v => some v | none => c.siblingsPriorAttended,
    parentPriorAttended :=
      match input.parentPriorAttended with | some v => some v | none => c.parentPriorAttended }

/-- GroupMember data clause of the member update: only present fields are
written; a present phone goes through normalizeNullablePhone, so a blank
phone is stored as null. -/
def applyMemberEditMemberUpdate (input : MemberUpdateInput) (m : GroupMember) : GroupMember :=
  { m with
    parentName := match input.parentName with | some v => some v | none => m.parentName,
    parentPhone :=
      match input.parentPhone with
      | some v =>
          (match normalizeNullablePhone (.str v) with
           | .str d => some d
           | _ => none)
      | none => m.parentPhone,
    noteToInstructor :=
      match input.noteToInstructor with | some v => some v | none => m.noteToInstructor }

/-- Row filter of the conditional GroupMember updateMany: the member id
matches and the owning group's rosterStatus is not locked (the relation
filter; a member with no group row matches nothing). -/
def memberUpdateGuardMatches (db : Db) (mid : Nat) (m : GroupMember) : Bool :=
  m.groupMemberId == mid &&
    (match findGroupById db m.groupId with
     | some g => !(g.rosterStatus == RosterStatus.locked)
     | none => false)

/-- The member update transaction from member/update/route.ts: lookup by
editToken (404), lock pre-check (409), then a Child update only when a
Child field is present, then a conditional GroupMember updateMany with
zero-rows lock guard only when a GroupMember field is present. Returns
the member id. -/
def memberUpdateTx (input : MemberUpdateInput) (db : Db) : Except TxError (Db × Nat) :=
  match findMemberByEditToken db input.editToken with
  | none => .error (.api 404 "Invalid edit token")
  | some member =>
      match findGroupById db member.groupId with
      | none => .error .generic
      | some group =>
          if group.rosterStatus = RosterStatus.locked then
            .error (.api 409 "Roster is locked. Modifications are not allowed.")
          else
            let db1 :=
              if memberUpdateHasChildFields input then
                { db with children :=
                    db.children.map (fun c =>
                      if c.childId == member.childId then
                        applyMemberEditChildUpdate input c
                      else c) }
              else db
            if memberUpdateHasMemberFields input then
              let updatedCount :=
                (db1.members.filter
                  (memberUpdateGuardMatches db1 member.groupMemberId)).length
              let db2 : Db :=
                { db1 with members :=
                    db1.members.map (fun m =>
                      if memberUpdateGuardMatches db1 member.groupMemberId m then
                        applyMemberEditMemberUpdate input m
                      else m) }
              if updatedCount = 0 then
                .error (.api 409 "Roster is locked. Modifications are not allowed.")
              else .ok (db2, member.groupMemberId)
            else .ok (db1, member.groupMemberId)

end WhyMe

namespace WhyMe

/-! ## Create or reuse the shared invite link -/

/-- Result of the create-or-reuse invite workflow. -/
structure InviteCreateResult where
  token : String
  reusedExisting : Bool
deriving DecidableEq

/-- Modelled from the spec: the sentinel very large maxUses used for the
one reusable shared per-team link; the concrete numeral is not in src/. -/
def SHARED_LINK_MAX_USES : Nat := 9999

/-- Modelled from the spec: the existing-non-expired-link-of-same-purpose
query that looks up a valid shared roster_entry link of the group. -/
def sharedLinkValid (now gid : Nat) (r : InviteLink) : Bool :=
  r.groupId == gid && r.purpose == Purpose.roster_entry &&
    (match r.expiresAt with
     | none => true
     | some t => decide (now < t))

/-- Modelled from the spec: the shared roster_entry link created when no
valid one exists, carrying the unlimited-use sentinel. -/
def mkSharedLink (db : Db) (gid expiresAt : Nat) : InviteLink :=
  { inviteId := db.nextId + 1, token := mkToken db.nextId, groupId := gid,
    purpose := Purpose.roster_entry, maxUses := SHARED_LINK_MAX_USES,
    usedCount := 0, expiresAt := some expiresAt }

/-- Modelled from the spec: the create-or-reuse invite transaction. The
shared-link variant of invite/create (returning reusedExisting) is not
under src/ — only its caller, the manage page, and the docs reference it;
the leader-token validation (404, 403, 410, 409 in the order of the
in-repo invite/create route) is kept, then an existing valid shared
roster_entry link of the group is returned with reusedExisting true, or
one is created with the unlimited-use sentinel and returned with
reusedExisting false. -/
def inviteCreateShared (now expiresAt : Nat) (leaderToken : String) (db : Db) :
    Except TxError (Db × InviteCreateResult) :=
  match findInviteByToken db leaderToken with
  | none => .error (.api 404 "Invalid token")
  | some leader =>
      if leader.purpose ≠ Purpose.leader_only then
        .error (.api 403 "Forbidden: Not a leader token")
      else if inviteExpired now leader.expiresAt then
        .error (.api 410 "Token expired")
      else
        match findGroupById db leader.groupId with
        | none => .error .generic
        | some group =>
            if group.rosterStatus = RosterStatus.locked then
              .error (.api 409 "Roster is locked")
            else
              match db.invites.find? (sharedLinkValid now leader.groupId) with
              | some existing =>
                  .ok (db, { token := existing.token, reusedExisting := true })
              | none =>
                  let newLink := mkSharedLink db leader.groupId expiresAt
                  let db1 : Db :=
                    { db with
                      invites := db.invites ++ [newLink],
                      nextId := db.nextId + 2 }
                  .ok (db1, { token := newLink.token, reusedExisting := false })

end WhyMe

namespace WhyMe

/-! ## Route-level response mapping around the retry loop -/

/-- HTTP-ish response of a route: a success status with a value, or an
error status with its message. -/
inductive RouteResult (α : Type) where
  | ok (status : Nat) (value : α) : RouteResult α
  | err (status : Nat) (message : String) : RouteResult α
deriving DecidableEq

/-- Response mapping of the invite submit route: a produced result is
201; a null result after the loop raises ApiStatusError 503; a thrown
ApiStatusError keeps its status; a serialization conflict reaching the
outer catch maps to 503 via isSerializationConflictError; anything else
is a generic 500. -/
def inviteSubmitRespond {α : Type} : LoopOutcome α → RouteResult α
  | .success r => .ok 201 r
  | .exhausted => .err 503 "Temporary concurrency issue. Please retry."
  | .thrown (.api s m) => .err s m
  | .thrown .conflict => .err 503 "Temporary concurrency issue. Please retry."
  | .thrown .generic => .err 500 "Internal Server Error"

/-- The invite submit route around its retry loop. -/
def inviteSubmitRoute {α : Type} (body : Nat → Except TxError α) : RouteResult α :=
  inviteSubmitRespond (runRetryLoop submitRetryPred body)

/-- Response mapping of the member update route: a produced result is
200; a null result after the loop raises a plain Error, which the outer
catch does not recognize and maps to 500; a thrown ApiError keeps its
status; the catch has no serialization-conflict branch, so a conflict
that exhausted its retries also maps to the generic 500. -/
def memberUpdateRespond {α : Type} : LoopOutcome α → RouteResult α
  | .success r => .ok 200 r
  | .exhausted => .err 500 "Internal Server Error"
  | .thrown (.api s m) => .err s m
  | .thrown .conflict => .err 500 "Internal Server Error"
  | .thrown .generic => .err 500 "Internal Server Error"

/-- The member update route around its retry loop. -/
def memberUpdateRoute {α : Type} (body : Nat → Except TxError α) : RouteResult α :=
  memberUpdateRespond (runRetryLoop inlineRetryPred body)

/-- Response mapping of the invite create route: as member update but
with 201 on success; its catch also has no serialization-conflict
branch, so exhausted retries map to the generic 500. -/
def inviteCreateRespond {α : Type} : LoopOutcome α → RouteResult α
  | .success r => .ok 201 r
  | .exhausted => .err 500 "Internal Server Error"
  | .thrown (.api s m) => .err s m
  | .thrown .conflict => .err 500 "Internal Server Error"
  | .thrown .generic => .err 500 "Internal Server Error"

/-- The invite create route around its retry loop. -/
def inviteCreateRoute {α : Type} (body : Nat → Except TxError α) : RouteResult α :=
  inviteCreateRespond (runRetryLoop inlineRetryPred body)

/-- A transaction body whose every attempt aborts with the store's
serialization conflict. -/
def allConflictBody (α : Type) : Nat → Except TxError α := fun _ => .error .conflict

/-! ## Invariants -/

/-- The InviteLink invariant: usedCount never exceeds maxUses. -/
def inviteCountsOk (db : Db) : Prop :=
  ∀ r ∈ db.invites, r.usedCount ≤ r.maxUses

/-- The invariant lifted over a transaction outcome: a thrown attempt
commits nothing, so only a produced state must satisfy it. -/
def resultCountsOk {α : Type} : Except TxError (Db × α) → Prop
  | .ok out => inviteCountsOk out.1
  | .error _ => True

/-- Primary keys of the InviteLink table are unique (a store constraint
the legacy unconditional increment by inviteId relies on). -/
def inviteIdsNodup (db : Db) : Prop :=
  (db.invites.map (fun r => r.inviteId)).Nodup

instance (db : Db) : Decidable (inviteCountsOk db) := by
  unfold inviteCountsOk; infer_instance

instance (db : Db) : Decidable (inviteIdsNodup db) := by
  unfold inviteIdsNodup; infer_instance

/-! ## Concrete fixtures used by the witness theorems -/

/-- Fixture: a fully used single-use roster_entry invite. -/
def wInviteUsed : InviteLink :=
  { inviteId := 1, token := "t1", groupId := 10, purpose := Purpose.roster_entry,
    maxUses := 1, usedCount := 1 }

/-- Fixture: a fresh shared roster_entry invite. -/
def wInviteFresh : InviteLink :=
  { inviteId := 2, token := "t2", groupId := 10, purpose := Purpose.roster_entry,
    maxUses := 9999, usedCount := 0 }

/-- Fixture: a leader_only invite for the same group. -/
def wInviteLeader : InviteLink :=
  { inviteId := 3, token := "lead1", groupId := 10, purpose := Purpose.leader_only,
    maxUses := 9999, usedCount := 0 }

/-- Fixture: the owning group, in draft with a declared headcount. -/
def wGroupDraft : GroupPass :=
  { groupId := 10, rosterStatus := RosterStatus.draft, headcountDeclared := some 4 }

/-- Fixture: an existing active member of the group with a known phone
and editToken. -/
def wMemberExisting : GroupMember :=
  { groupMemberId := 50, groupId := 10, childId := 60,
    parentPhone := some "01012345678", editToken := some "edit50",
    status := MemberStatus.completed, createdAt := 7 }

/-- Fixture: the existing member's child row. -/
def wChildExisting : Child := { childId := 60, name := "Old" }

/-- Fixture: a store holding the used invite and the draft group. -/
def wDbUsed : Db :=
  { invites := [wInviteUsed], groups := [wGroupDraft], children := [],
    members := [], nextId := 100 }

/-- Fixture: a store holding a fresh invite, the draft group, and one
existing member with child. -/
def wDbFresh : Db :=
  { invites := [wInviteFresh], groups := [wGroupDraft],
    children := [wChildExisting], members := [wMemberExisting], nextId := 100 }

/-- Fixture: a store holding only the leader link and the draft group. -/
def wDbLeader : Db :=
  { invites := [wInviteLeader], groups := [wGroupDraft], children := [],
    members := [], nextId := 100 }

/-- Fixture: one submitted student. -/
def wStudent : StudentInput := { childName := "Kid" }

/-- Fixture: a submit body for the used invite. -/
def wSubmitUsed : SubmitInput :=
  { token := "t1", students := [wStudent], parentPhone := "010-1234-5678" }

/-- Fixture: a submit body for the fresh invite from the existing
member's phone. -/
def wSubmitFresh : SubmitInput :=
  { token := "t2", students := [wStudent], parentPhone := "010-1234-5678" }

/-- Fixture: a member update carrying only the edit token and no
updatable field. -/
def wUpdateEmpty : MemberUpdateInput := { editToken := "edit50" }

end WhyMe

namespace WhyMe

/-! ## Claim theorems for the pure helpers -/

theorem retryAttemptsFrom_le_fuel {α : Type} (retryP : TxError → Nat → Bool)
    (body : Nat → Except TxError α) :
    ∀ fuel attempt, retryAttemptsFrom retryP body attempt fuel ≤ fuel := by
  intro fuel
  induction fuel with
  | zero => intro attempt; simp [retryAttemptsFrom]
  | succ f ih =>
      intro attempt
      simp only [retryAttemptsFrom]
      cases body attempt with
      | ok a => show 1 ≤ f + 1; omega
      | error e =>
          show (if retryP e attempt then
              1 + retryAttemptsFrom retryP body (attempt + 1) f else 1) ≤ f + 1
          by_cases h : retryP e attempt = true
          · rw [if_pos h]
            have := ih (attempt + 1)
            omega
          · rw [if_neg h]
            omega

/-- C8: normalizeNullablePhone passes undefined and null through; a string
maps to its digits when a digit remains and to null otherwise; the result
is never the empty string; and the empty string maps to null. -/
theorem normalizeNullablePhone_spec :
    normalizeNullablePhone .undef = .undef ∧
    normalizeNullablePhone .nullv = .nullv ∧
    (∀ s : String,
      normalizeNullablePhone (.str s) =
        (if (normalizePhoneDigits s).length > 0 then .str (normalizePhoneDigits s)
         else .nullv)) ∧
    (∀ s : String, normalizeNullablePhone (.str s) ≠ .str "") ∧
    normalizeNullablePhone (.str "") = .nullv := by
  refine ⟨rfl, rfl, fun s => rfl, fun s => ?_, rfl⟩
  simp only [normalizeNullablePhone]
  by_cases h : (normalizePhoneDigits s).length > 0
  · simp only [h, if_true]
    intro hcontra
    injection hcontra with hs
    rw [hs] at h
    exact absurd h (by decide)
  · simp [h]

/-- C7: shouldRetrySerializableError is true exactly when the error is
classified as a serialization conflict and attempt is below maxRetries; a
non-conflict error is never retried; the policy constant is 2 retries; and
the retry loop of a workflow makes at most MAX_SERIALIZABLE_RETRIES + 1 = 3
transaction attempts. -/
theorem shouldRetrySerializableError_spec :
    (∀ (e : JsError) (a m : Nat),
      shouldRetrySerializableError e a m = true ↔
        (isSerializationConflictError e = true ∧ a < m)) ∧
    (∀ (e : JsError) (a m : Nat),
      isSerializationConflictError e = false →
        shouldRetrySerializableError e a m = false) ∧
    MAX_SERIALIZABLE_RETRIES = 2 ∧
    (∀ (α : Type) (retryP : TxError → Nat → Bool) (body : Nat → Except TxError α),
      retryLoopAttempts retryP body ≤ 3) := by
  refine ⟨fun e a m => ?_, fun e a m h => ?_, rfl, fun α retryP body => ?_⟩
  · simp [shouldRetrySerializableError]
  · simp [shouldRetrySerializableError, h]
  · have := retryAttemptsFrom_le_fuel retryP body (MAX_SERIALIZABLE_RETRIES + 1) 0
    simpa [retryLoopAttempts, MAX_SERIALIZABLE_RETRIES] using this

/-- Witness for C7: concrete instances of each hypothesis-bearing part. -/
theorem shouldRetrySerializableError_spec_witness :
    shouldRetrySerializableError (.objCodeStr "P2034") 1 2 = true ∧
    shouldRetrySerializableError .nonObject 0 2 = false := by
  constructor
  · exact (shouldRetrySerializableError_spec.1 (.objCodeStr "P2034") 1 2).mpr
      ⟨by decide, by decide⟩
  · exact shouldRetrySerializableError_spec.2.1 .nonObject 0 2 (by decide)

/-! ## Shared lemmas about the submit transaction -/

theorem inviteSubmitTx_error_of_checks (now : Nat) (input : SubmitInput) (db : Db)
    (e : TxError) (h : submitChecks now input.token db = .error e) :
    inviteSubmitTx now input db = .error e := by
  unfold inviteSubmitTx
  rw [h]

theorem submitChecks_none (now : Nat) (token : String) (db : Db)
    (h : findInviteByToken db token = none) :
    submitChecks now token db = .error (.api 404 "Invalid token") := by
  unfold submitChecks
  rw [h]

theorem submitChecks_purpose (now : Nat) (token : String) (db : Db) (inv : InviteLink)
    (h : findInviteByToken db token = some inv)
    (hp : inv.purpose ≠ Purpose.roster_entry) :
    submitChecks now token db = .error (.api 403 "Invalid token purpose") := by
  unfold submitChecks
  rw [h]
  simp [hp]

theorem submitChecks_expired (now : Nat) (token : String) (db : Db) (inv : InviteLink)
    (h : findInviteByToken db token = some inv)
    (hp : inv.purpose = Purpose.roster_entry)
    (he : inviteExpired now inv.expiresAt = true) :
    submitChecks now token db = .error (.api 410 "Token expired") := by
  unfold submitChecks
  rw [h]
  simp [hp, he]

theorem submitChecks_locked (now : Nat) (token : String) (db : Db)
    (inv : InviteLink) (g : GroupPass)
    (h : findInviteByToken db token = some inv)
    (hp : inv.purpose = Purpose.roster_entry)
    (he : inviteExpired now inv.expiresAt = false)
    (hg : findGroupById db inv.groupId = some g)
    (hl : g.rosterStatus = RosterStatus.locked) :
    submitChecks now token db = .error (.api 409 "Group roster is locked") := by
  unfold submitChecks
  rw [h]
  simp [hp, he, hg, hl]

theorem submitChecks_ok_iff (now : Nat) (token : String) (db : Db)
    (inv : InviteLink) (g : GroupPass) :
    submitChecks now token db = .ok (inv, g) ↔
      (findInviteByToken db token = some inv ∧
       inv.purpose = Purpose.roster_entry ∧
       inviteExpired now inv.expiresAt = false ∧
       findGroupById db inv.groupId = some g ∧
       g.rosterStatus ≠ RosterStatus.locked) := by
  unfold submitChecks
  cases hf : findInviteByToken db token with
  | none => simp
  | some inv0 =>
      by_cases hp : inv0.purpose = Purpose.roster_entry
      · simp only [hp, ne_eq, not_true_eq_false, if_false, ite_false]
        cases he : inviteExpired now inv0.expiresAt with
        | true =>
            simp [he]
            rintro rfl h2 h3 h4
            rw [he] at h3
            exact absurd h3 (by decide)
        | false =>
            simp only [he, Bool.false_eq_true, if_false, ite_false]
            cases hg : findGroupById db inv0.groupId with
            | none =>
                simp
                rintro rfl h2 h3 h4
                rw [hg] at h4
                exact absurd h4 (by simp)
            | some g0 =>
                by_cases hl : g0.rosterStatus = RosterStatus.locked
                · simp [hl]
                  rintro rfl h2 h3 h4
                  rw [hg] at h4
                  injection h4 with h4
                  subst h4
                  exact hl
                · simp only [hl, if_false, ite_false]
                  constructor
                  · intro hok
                    injection hok with hpair
                    injection hpair with h1 h2
                    subst h1; subst h2
                    exact ⟨rfl, hp, he, hg, fun hc => hl hc⟩
                  · rintro ⟨h1, h2, h3, h4, h5⟩
                    injection h1 with h1
                    subst h1
                    rw [hg] at h4
                    injection h4 with h4
                    subst h4
                    rfl
      · simp [hp]
        rintro rfl h2 h3 h4
        exact absurd h2 hp

/-- C3: the submit transaction checks its preconditions in source order
and returns the status of the first failing check: missing token 404,
wrong purpose 403, expired 410, locked owning group 409; the conditional
claim update is reached exactly when all four checks pass. -/
theorem inviteSubmit_check_order :
    (∀ (now : Nat) (input : SubmitInput) (db : Db),
      findInviteByToken db input.token = none →
      inviteSubmitTx now input db = .error (.api 404 "Invalid token")) ∧
    (∀ (now : Nat) (input : SubmitInput) (db : Db) (inv : InviteLink),
      findInviteByToken db input.token = some inv →
      inv.purpose ≠ Purpose.roster_entry →
      inviteSubmitTx now input db = .error (.api 403 "Invalid token purpose")) ∧
    (∀ (now : Nat) (input : SubmitInput) (db : Db) (inv : InviteLink),
      findInviteByToken db input.token = some inv →
      inv.purpose = Purpose.roster_entry →
      inviteExpired now inv.expiresAt = true →
      inviteSubmitTx now input db = .error (.api 410 "Token expired")) ∧
    (∀ (now : Nat) (input : SubmitInput) (db : Db) (inv : InviteLink) (g : GroupPass),
      findInviteByToken db input.token = some inv →
      inv.purpose = Purpose.roster_entry →
      inviteExpired now inv.expiresAt = false →
      findGroupById db inv.groupId = some g →
      g.rosterStatus = RosterStatus.locked →
      inviteSubmitTx now input db = .error (.api 409 "Group roster is locked")) ∧
    (∀ (now : Nat) (token : String) (db : Db) (inv : InviteLink) (g : GroupPass),
      submitChecks now token db = .ok (inv, g) ↔
        (findInviteByToken db token = some inv ∧
         inv.purpose = Purpose.roster_entry ∧
         inviteExpired now inv.expiresAt = false ∧
         findGroupById db inv.groupId = some g ∧
         g.rosterStatus ≠ RosterStatus.locked)) := by
  refine ⟨?_, ?_, ?_, ?_, ?_⟩
  · intro now input db h
    exact inviteSubmitTx_error_of_checks now input db _ (submitChecks_none now input.token db h)
  · intro now input db inv h hp
    exact inviteSubmitTx_error_of_checks now input db _
      (submitChecks_purpose now input.token db inv h hp)
  · intro now input db inv h hp he
    exact inviteSubmitTx_error_of_checks now input db _
      (submitChecks_expired now input.token db inv h hp he)
  · intro now input db inv g h hp he hg hl
    exact inviteSubmitTx_error_of_checks now input db _
      (submitChecks_locked now input.token db inv g h hp he hg hl)
  · intro now token db inv g
    exact submitChecks_ok_iff now token db inv g

/-- Witness for C3: the four failure statuses and one passing check on
concrete stores. -/
theorem inviteSubmit_check_order_witness :
    inviteSubmitTx 5 { wSubmitUsed with token := "zz" } wDbUsed =
      .error (.api 404 "Invalid token") ∧
    inviteSubmitTx 5 { wSubmitUsed with token := "lead1" } wDbLeader =
      .error (.api 403 "Invalid token purpose") ∧
    submitChecks 5 "t2" wDbFresh = .ok (wInviteFresh, wGroupDraft) := by
  refine ⟨?_, ?_, ?_⟩
  · exact inviteSubmit_check_order.1 5 _ wDbUsed (by decide)
  · exact inviteSubmit_check_order.2.1 5 _ wDbLeader wInviteLeader (by decide) (by decide)
  · exact (inviteSubmit_check_order.2.2.2.2 5 "t2" wDbFresh wInviteFresh wGroupDraft).mpr
      ⟨by decide, by decide, by decide, by decide, by decide⟩

/-- C1: the invite-token claim is one conditional update — it increments
usedCount by exactly one and stamps usedAt and usedBy, on rows filtered
by usedCount strictly below maxUses and expiresAt null or in the future —
and whenever it reports zero affected rows after the pre-checks passed,
the submit transaction throws 409 Token already used, so the attempt
commits no Child or GroupMember row. -/
theorem inviteSubmit_zeroRows_conflict :
    (∀ (now : Nat) (ub : String) (r : InviteLink),
      (applyClaim now ub r).usedCount = r.usedCount + 1 ∧
      (applyClaim now ub r).usedAt = some now ∧
      (applyClaim now ub r).usedBy = some ub) ∧
    (∀ (now iid : Nat) (r : InviteLink),
      claimMatches now iid r = true ↔
        (r.inviteId = iid ∧ r.usedCount < r.maxUses ∧
          (r.expiresAt = none ∨ ∃ t, r.expiresAt = some t ∧ now < t))) ∧
    (∀ (now : Nat) (input : SubmitInput) (db : Db) (inv : InviteLink) (g : GroupPass),
      submitChecks now input.token db = .ok (inv, g) →
      claimCount now inv.inviteId db = 0 →
      inviteSubmitTx now input db = .error (.api 409 "Token already used")) := by
  refine ⟨fun now ub r => ⟨rfl, rfl, rfl⟩, fun now iid r => ?_, ?_⟩
  · simp only [claimMatches, Bool.and_eq_true, beq_iff_eq, decide_eq_true_eq]
    cases hre : r.expiresAt with
    | none => simp
    | some t => simp [and_assoc]
  · intro now input db inv g hc hz
    unfold inviteSubmitTx
    rw [hc]
    simp only [hz, assertInviteTokenClaimed, if_pos]

/-- Witness for C1: on a store whose single-use token is exhausted, the
checks pass, the conditional update matches zero rows, and the submit
fails with 409 Token already used. -/
theorem inviteSubmit_zeroRows_conflict_witness :
    inviteSubmitTx 5 wSubmitUsed wDbUsed = .error (.api 409 "Token already used") :=
  inviteSubmit_zeroRows_conflict.2.2 5 wSubmitUsed wDbUsed wInviteUsed wGroupDraft
    (by decide) (by decide)

/-- C6 (code bug): with every attempt aborting on the store's
serialization conflict until the retry budget is exhausted, the submit
route surfaces 503, but the member update and invite create routes have
no conflict branch in their outer catch and surface the generic 500 —
contradicting the claim and the repo docs that standardize
retry-exhausted responses to 503. -/
theorem retryExhaustion_divergence :
    inviteSubmitRoute (allConflictBody (Db × SubmitResult)) =
      .err 503 "Temporary concurrency issue. Please retry." ∧
    memberUpdateRoute (allConflictBody (Db × Nat)) =
      .err 500 "Internal Server Error" ∧
    inviteCreateRoute (allConflictBody (Db × InviteCreateResult)) =
      .err 500 "Internal Server Error" := by
  refine ⟨?_, ?_, ?_⟩ <;> rfl

theorem sortByCreatedAt_length (l : List GroupMember) :
    (sortByCreatedAt l).length = l.length :=
  (List.perm_insertionSort createdAtLe l).length_eq

theorem claimUpdate_members (now iid : Nat) (ub : String) (db : Db) :
    (claimUpdate now iid ub db).members = db.members := rfl

theorem activeMemberCount_claimUpdate (now iid : Nat) (ub : String) (db : Db) (gid : Nat) :
    activeMemberCount (claimUpdate now iid ub db) gid = activeMemberCount db gid := rfl

/-- C4: once the checks and the token claim succeed, the multi-student
submit computes the projected active headcount — active members of the
group, minus active members with the submitting parent's normalized
phone, plus the number of submitted students — and fails with 409 Group
headcount exceeded exactly when headcountDeclared is non-null and the
projection exceeds it; with a null headcountDeclared the transaction
always commits. -/
theorem submit_headcount_projection :
    ∀ (now : Nat) (input : SubmitInput) (db : Db) (inv : InviteLink) (g : GroupPass),
      submitChecks now input.token db = .ok (inv, g) →
      claimCount now inv.inviteId db ≠ 0 →
      ((g.headcountDeclared = none →
         ∃ out, inviteSubmitTx now input db = .ok out) ∧
       (∀ d : Nat, g.headcountDeclared = some d →
         (((activeMemberCount db inv.groupId : Int)
             - ((db.members.filter (memberMatchesParent inv.groupId
                  (normalizePhoneDigits input.parentPhone))).length : Int)
             + (input.students.length : Int) > (d : Int) →
            inviteSubmitTx now input db =
              .error (.api 409 "Group headcount exceeded")) ∧
          ((activeMemberCount db inv.groupId : Int)
             - ((db.members.filter (memberMatchesParent inv.groupId
                  (normalizePhoneDigits input.parentPhone))).length : Int)
             + (input.students.length : Int) ≤ (d : Int) →
            ∃ out, inviteSubmitTx now input db = .ok out)))) := by
  intro now input db inv g hc hz
  unfold inviteSubmitTx
  rw [hc]
  simp only [assertInviteTokenClaimed, if_neg hz, sortByCreatedAt_length,
    claimUpdate_members, activeMemberCount_claimUpdate]
  refine ⟨?_, ?_⟩
  · intro hd
    simp only [hd, submitHeadcountExceeded]
    exact ⟨_, rfl⟩
  · intro d hd
    simp only [hd, submitHeadcountExceeded]
    constructor
    · intro hgt
      rw [if_pos (decide_eq_true hgt)]
    · intro hle
      rw [if_neg (by simpa using hle)]
      exact ⟨_, rfl⟩

/-- Witness for C4: on a concrete store with headcountDeclared 4, one
active member for the submitting phone, and one submitted student, the
projection stays within bounds and the submit commits. -/
theorem submit_headcount_projection_witness :
    ∃ out, inviteSubmitTx 5 wSubmitFresh wDbFresh = .ok out :=
  ((submit_headcount_projection 5 wSubmitFresh wDbFresh wInviteFresh wGroupDraft
      (by decide) (by decide)).2 4 (by decide)).2 (by decide)

/-- C10: a member update with a valid editToken on a non-locked group and
no updatable field writes nothing — the state is returned unchanged — yet
succeeds, and the route answers 200 with the member id; the zero-rows
lock guard is only reached when a GroupMember field is present. -/
theorem memberUpdate_noFields_frame :
    ∀ (input : MemberUpdateInput) (db : Db) (m : GroupMember) (g : GroupPass),
      findMemberByEditToken db input.editToken = some m →
      findGroupById db m.groupId = some g →
      g.rosterStatus ≠ RosterStatus.locked →
      memberUpdateHasChildFields input = false →
      memberUpdateHasMemberFields input = false →
      memberUpdateTx input db = .ok (db, m.groupMemberId) ∧
      memberUpdateRoute (fun _ => memberUpdateTx input db) =
        .ok 200 (db, m.groupMemberId) := by
  intro input db m g hm hg hl hcf hmf
  have htx : memberUpdateTx input db = .ok (db, m.groupMemberId) := by
    unfold memberUpdateTx
    rw [hm]
    simp only [hg]
    rw [if_neg hl]
    simp only [hcf, hmf, Bool.false_eq_true, if_false]
  refine ⟨htx, ?_⟩
  simp [memberUpdateRoute, runRetryLoop, MAX_SERIALIZABLE_RETRIES, runRetryFrom,
    htx, memberUpdateRespond]

/-- Witness for C10: the empty update on the concrete store succeeds with
200 and leaves the store untouched. -/
theorem memberUpdate_noFields_frame_witness :
    memberUpdateTx wUpdateEmpty wDbFresh = .ok (wDbFresh, 50) ∧
    memberUpdateRoute (fun _ => memberUpdateTx wUpdateEmpty wDbFresh) =
      .ok 200 (wDbFresh, 50) :=
  memberUpdate_noFields_frame wUpdateEmpty wDbFresh wMemberExisting wGroupDraft
    (by decide) (by decide) (by decide) (by decide) (by decide)

/-! ## Lemmas for the usedCount invariant -/

theorem claimMatches_lt (now iid : Nat) (r : InviteLink)
    (h : claimMatches now iid r = true) : r.usedCount < r.maxUses := by
  simp only [claimMatches, Bool.and_eq_true, decide_eq_true_eq] at h
  exact h.1.2

theorem claimUpdate_countsOk (now iid : Nat) (ub : String) (db : Db)
    (h : inviteCountsOk db) : inviteCountsOk (claimUpdate now iid ub db) := by
  intro r hr
  simp only [claimUpdate, List.mem_map] at hr
  obtain ⟨r0, hr0, heq⟩ := hr
  by_cases hm : claimMatches now iid r0 = true
  · rw [if_pos hm] at heq
    subst heq
    have hlt := claimMatches_lt now iid r0 hm
    show r0.usedCount + 1 ≤ r0.maxUses
    omega
  · rw [if_neg hm] at heq
    subst heq
    exact h r0 hr0

theorem processStudents_invites (pn pnote : Option String) (phone : String) (gid : Nat) :
    ∀ (ss : List StudentInput) (ems : List GroupMember) (db : Db),
      (processStudents pn pnote phone gid ss ems db).1.invites = db.invites := by
  intro ss
  induction ss with
  | nil => intro ems db; cases ems <;> rfl
  | cons s ss ih =>
      intro ems db
      cases ems with
      | nil =>
          simp only [processStudents]
          rw [ih]
      | cons em ems =>
          simp only [processStudents]
          cases het : em.editToken with
          | none =>
              simp only [het]
              rw [ih]
              rfl
          | some t =>
              simp only [het]
              rw [ih]
              rfl

theorem submitWrites_invites (pn pnote : Option String) (phone : String) (gid : Nat)
    (students : List StudentInput) (existing : List GroupMember) (db : Db) :
    (submitWrites pn pnote phone gid students existing db).1.invites = db.invites := by
  unfold submitWrites
  by_cases h : existing.length > students.length
  · simp only [if_pos h]
    exact processStudents_invites pn pnote phone gid students existing db
  · simp only [if_neg h]
    exact processStudents_invites pn pnote phone gid students existing db

/-- C2: usedCount never exceeds maxUses. The conditional claim update
increments only rows that still satisfy usedCount below maxUses, so it
preserves the invariant unconditionally; the multi-student submit
transaction preserves it on every committed state; and the legacy submit
(which increments unconditionally by inviteId after its pre-check) also
preserves it on every committed state, given the store's primary-key
uniqueness of inviteId. -/
theorem usedCount_le_maxUses_preserved :
    (∀ (now iid : Nat) (ub : String) (db : Db),
      inviteCountsOk db → inviteCountsOk (claimUpdate now iid ub db)) ∧
    (∀ (now : Nat) (input : SubmitInput) (db : Db),
      inviteCountsOk db → resultCountsOk (inviteSubmitTx now input db)) ∧
    (∀ (now : Nat) (input : LegacySubmitInput) (db : Db),
      inviteIdsNodup db → inviteCountsOk db →
      resultCountsOk (inviteSubmitLegacy now input db)) := by
  refine ⟨claimUpdate_countsOk, ?_, ?_⟩
  · intro now input db h
    unfold inviteSubmitTx
    cases hc : submitChecks now input.token db with
    | error e => trivial
    | ok p =>
        obtain ⟨inv, g⟩ := p
        by_cases hz : claimCount now inv.inviteId db = 0
        · simp only [assertInviteTokenClaimed, if_pos hz]
          trivial
        · simp only [assertInviteTokenClaimed, if_neg hz]
          split
          · trivial
          · show inviteCountsOk (submitWrites _ _ _ _ _ _ _).1
            intro r hr
            rw [submitWrites_invites] at hr
            exact claimUpdate_countsOk now inv.inviteId _ db h r hr
  · intro now input db hnd h
    unfold inviteSubmitLegacy
    cases hf : findInviteByToken db input.token with
    | none => trivial
    | some invite =>
        by_cases hp : invite.purpose ≠ Purpose.roster_entry
        · simp only [if_pos hp]; trivial
        · simp only [if_neg hp]
          cases he : inviteExpired now invite.expiresAt with
          | true => simp only [if_pos]; trivial
          | false =>
              simp only [Bool.false_eq_true, if_false]
              by_cases hu : invite.maxUses ≤ invite.usedCount
              · simp only [if_pos hu]; trivial
              · simp only [if_neg hu]
                cases hg : findGroupById db invite.groupId with
                | none => trivial
                | some group =>
                    by_cases hl : group.rosterStatus = RosterStatus.locked
                    · simp only [if_pos hl]; trivial
                    · simp only [if_neg hl]
                      show inviteCountsOk _
                      intro r hr
                      simp only [List.mem_map] at hr
                      obtain ⟨r0, hr0, heq⟩ := hr
                      have hinv_mem : invite ∈ db.invites :=
                        List.mem_of_find?_eq_some hf
                      by_cases hid : (r0.inviteId == invite.inviteId) = true
                      · rw [if_pos hid] at heq
                        subst heq
                        have hr0inv : r0 = invite :=
                          List.inj_on_of_nodup_map hnd hr0 hinv_mem (beq_iff_eq.mp hid)
                        subst hr0inv
                        show r0.usedCount + 1 ≤ r0.maxUses
                        omega
                      · rw [if_neg hid] at heq
                        subst heq
                        exact h r0 hr0

/-- Witness for C2: a successful concrete submit on the fresh store
keeps every usedCount within maxUses; the legacy submit on the same
store does too. -/
theorem usedCount_le_maxUses_preserved_witness :
    resultCountsOk (inviteSubmitTx 5 wSubmitFresh wDbFresh) ∧
    resultCountsOk (inviteSubmitLegacy 5
      { token := "t2", childName := "Kid" } wDbFresh) :=
  ⟨usedCount_le_maxUses_preserved.2.1 5 wSubmitFresh wDbFresh (by decide),
   usedCount_le_maxUses_preserved.2.2 5 { token := "t2", childName := "Kid" }
     wDbFresh (by decide) (by decide)⟩

/-! ## Lemmas for positional matching in the multi-student submit -/

theorem processStudents_out_length (pn pnote : Option String) (phone : String) (gid : Nat) :
    ∀ (ss : List StudentInput) (ems : List GroupMember) (db : Db),
      (processStudents pn pnote phone gid ss ems db).2.length = ss.length := by
  intro ss
  induction ss with
  | nil => intro ems db; cases ems <;> rfl
  | cons s ss ih =>
      intro ems db
      cases ems with
      | nil =>
          simp only [processStudents, List.length_cons]
          rw [ih]
      | cons em ems =>
          simp only [processStudents, List.length_cons]
          rw [ih]

theorem processStudents_ids (pn pnote : Option String) (phone : String) (gid : Nat) :
    ∀ (ss : List StudentInput) (ems : List GroupMember) (db : Db) (i : Nat) (m : GroupMember),
      ems[i]? = some m → i < ss.length →
      ((processStudents pn pnote phone gid ss ems db).2.map Prod.fst)[i]? =
        some m.groupMemberId := by
  intro ss
  induction ss with
  | nil =>
      intro ems db i m hm hi
      simp at hi
  | cons s ss ih =>
      intro ems db i m hm hi
      cases ems with
      | nil => simp at hm
      | cons em ems =>
          cases i with
          | zero =>
              simp only [List.getElem?_cons_zero, Option.some.injEq] at hm
              subst hm
              simp only [processStudents, List.map_cons, List.getElem?_cons_zero]
          | succ j =>
              simp only [List.getElem?_cons_succ] at hm
              simp only [processStudents, List.map_cons, List.getElem?_cons_succ]
              exact ih ems _ j m hm (by simp at hi; omega)

theorem processStudents_tokens (pn pnote : Option String) (phone : String) (gid : Nat) :
    ∀ (ss : List StudentInput) (ems : List GroupMember) (db : Db) (i : Nat)
      (m : GroupMember) (t : String),
      ems[i]? = some m → m.editToken = some t → i < ss.length →
      ((processStudents pn pnote phone gid ss ems db).2.map Prod.snd)[i]? = some t := by
  intro ss
  induction ss with
  | nil =>
      intro ems db i m t hm ht hi
      simp at hi
  | cons s ss ih =>
      intro ems db i m t hm ht hi
      cases ems with
      | nil => simp at hm
      | cons em ems =>
          cases i with
          | zero =>
              simp only [List.getElem?_cons_zero, Option.some.injEq] at hm
              subst hm
              simp only [processStudents, ht, List.map_cons, List.getElem?_cons_zero]
          | succ j =>
              simp only [List.getElem?_cons_succ] at hm
              simp only [processStudents, List.map_cons, List.getElem?_cons_succ]
              exact ih ems _ j m t hm ht (by simp at hi; omega)

theorem processStudents_growth (pn pnote : Option String) (phone : String) (gid : Nat) :
    ∀ (ss : List StudentInput) (ems : List GroupMember) (db : Db),
      (processStudents pn pnote phone gid ss ems db).1.members.length =
        db.members.length + (ss.length - ems.length) ∧
      (processStudents pn pnote phone gid ss ems db).1.children.length =
        db.children.length + (ss.length - ems.length) := by
  intro ss
  induction ss with
  | nil =>
      intro ems db
      cases ems <;> simp [processStudents]
  | cons s ss ih =>
      intro ems db
      cases ems with
      | nil =>
          simp only [processStudents]
          refine ⟨?_, ?_⟩
          · rw [(ih [] _).1]
            simp only [List.length_append, List.length_cons, List.length_nil]
            omega
          · rw [(ih [] _).2]
            simp only [List.length_append, List.length_cons, List.length_nil]
            omega
      | cons em ems =>
          simp only [processStudents]
          cases het : em.editToken with
          | none =>
              simp only [het]
              refine ⟨?_, ?_⟩
              · rw [(ih ems _).1]
                simp only [List.length_map, List.length_cons, updateChildIn]
                omega
              · rw [(ih ems _).2]
                simp only [updateChildIn, List.length_map, List.length_cons]
                omega
          | some t0 =>
              simp only [het]
              refine ⟨?_, ?_⟩
              · rw [(ih ems _).1]
                simp only [List.length_map, List.length_cons, updateChildIn]
                omega
              · rw [(ih ems _).2]
                simp only [updateChildIn, List.length_map, List.length_cons]
                omega

/-- C9: resubmitted students are matched to a family's existing active
members purely by position: the existing members (same group, same
normalized phone, not removed) are ordered ascending by creation time;
the i-th submitted student is paired with the i-th such member, keeping
its groupMemberId and reusing its editToken when non-null; students past
the number of existing members create exactly that many new GroupMember
and Child rows; and the submit transaction commits precisely these writes
on the claimed state. -/
theorem submit_positional_matching :
    (∀ l : List GroupMember,
      List.Perm (sortByCreatedAt l) l ∧
      List.Sorted createdAtLe (sortByCreatedAt l)) ∧
    (∀ (pn pnote : Option String) (phone : String) (gid : Nat)
       (ss : List StudentInput) (ems : List GroupMember) (db : Db),
      (processStudents pn pnote phone gid ss ems db).2.length = ss.length ∧
      (processStudents pn pnote phone gid ss ems db).1.members.length =
        db.members.length + (ss.length - ems.length) ∧
      (processStudents pn pnote phone gid ss ems db).1.children.length =
        db.children.length + (ss.length - ems.length) ∧
      (submitWrites pn pnote phone gid ss ems db).2.groupMemberIds =
        (processStudents pn pnote phone gid ss ems db).2.map Prod.fst ∧
      (submitWrites pn pnote phone gid ss ems db).2.editTokens =
        (processStudents pn pnote phone gid ss ems db).2.map Prod.snd) ∧
    (∀ (pn pnote : Option String) (phone : String) (gid : Nat)
       (ss : List StudentInput) (ems : List GroupMember) (db : Db)
       (i : Nat) (m : GroupMember),
      ems[i]? = some m → i < ss.length →
      ((processStudents pn pnote phone gid ss ems db).2.map Prod.fst)[i]? =
        some m.groupMemberId) ∧
    (∀ (pn pnote : Option String) (phone : String) (gid : Nat)
       (ss : List StudentInput) (ems : List GroupMember) (db : Db)
       (i : Nat) (m : GroupMember) (t : String),
      ems[i]? = some m → m.editToken = some t → i < ss.length →
      ((processStudents pn pnote phone gid ss ems db).2.map Prod.snd)[i]? =
        some t) ∧
    (∀ (now : Nat) (input : SubmitInput) (db : Db) (inv : InviteLink) (g : GroupPass),
      submitChecks now input.token db = .ok (inv, g) →
      claimCount now inv.inviteId db ≠ 0 →
      submitHeadcountExceeded g.headcountDeclared
        ((activeMemberCount db inv.groupId : Int)
          - ((db.members.filter (memberMatchesParent inv.groupId
               (normalizePhoneDigits input.parentPhone))).length : Int)
          + (input.students.length : Int)) = false →
      inviteSubmitTx now input db =
        .ok (submitWrites (normalizedOptionalText input.parentName)
              (normalizedOptionalText input.noteToInstructor)
              (normalizePhoneDigits input.parentPhone) inv.groupId
              input.students
              (sortByCreatedAt (db.members.filter (memberMatchesParent inv.groupId
                (normalizePhoneDigits input.parentPhone))))
              (claimUpdate now inv.inviteId
                (String.append "ParentPhone:"
                  (normalizePhoneDigits input.parentPhone)) db))) := by
  refine ⟨?_, ?_, processStudents_ids, processStudents_tokens, ?_⟩
  · intro l
    exact ⟨List.perm_insertionSort createdAtLe l,
           List.sorted_insertionSort createdAtLe l⟩
  · intro pn pnote phone gid ss ems db
    refine ⟨processStudents_out_length pn pnote phone gid ss ems db,
            (processStudents_growth pn pnote phone gid ss ems db).1,
            (processStudents_growth pn pnote phone gid ss ems db).2, ?_, ?_⟩
    · unfold submitWrites
      by_cases h : ems.length > ss.length
      · simp only [if_pos h]
      · simp only [if_neg h]
    · unfold submitWrites
      by_cases h : ems.length > ss.length
      · simp only [if_pos h]
      · simp only [if_neg h]
  · intro now input db inv g hc hz hh
    unfold inviteSubmitTx
    rw [hc]
    simp only [assertInviteTokenClaimed, if_neg hz, sortByCreatedAt_length,
      claimUpdate_members, activeMemberCount_claimUpdate, hh,
      Bool.false_eq_true, if_false]

/-- Witness for C9: on the concrete fresh store with one existing member
for the phone, the paired output keeps groupMemberId 50 and editToken
edit50, and the transaction commits the positional writes. -/
theorem submit_positional_matching_witness :
    ((processStudents none none "01012345678" 10 [wStudent] [wMemberExisting]
        wDbFresh).2.map Prod.fst)[0]? = some 50 ∧
    ((processStudents none none "01012345678" 10 [wStudent] [wMemberExisting]
        wDbFresh).2.map Prod.snd)[0]? = some "edit50" ∧
    inviteSubmitTx 5 wSubmitFresh wDbFresh =
      .ok (submitWrites (normalizedOptionalText wSubmitFresh.parentName)
            (normalizedOptionalText wSubmitFresh.noteToInstructor)
            (normalizePhoneDigits wSubmitFresh.parentPhone) wInviteFresh.groupId
            wSubmitFresh.students
            (sortByCreatedAt (wDbFresh.members.filter
              (memberMatchesParent wInviteFresh.groupId
                (normalizePhoneDigits wSubmitFresh.parentPhone))))
            (claimUpdate 5 wInviteFresh.inviteId
              (String.append "ParentPhone:"
                (normalizePhoneDigits wSubmitFresh.parentPhone)) wDbFresh)) := by
  refine ⟨?_, ?_, ?_⟩
  · exact submit_positional_matching.2.2.1 none none "01012345678" 10 [wStudent]
      [wMemberExisting] wDbFresh 0 wMemberExisting (by decide) (by decide)
  · exact submit_positional_matching.2.2.2.1 none none "01012345678" 10 [wStudent]
      [wMemberExisting] wDbFresh 0 wMemberExisting "edit50" (by decide) (by decide)
      (by decide)
  · exact submit_positional_matching.2.2.2.2 5 wSubmitFresh wDbFresh wInviteFresh
      wGroupDraft (by decide) (by decide) (by decide)

/-! ## Lemmas for the shared-link create-or-reuse workflow -/

theorem find?_append_left {α : Type} (p : α → Bool) (l1 l2 : List α) (a : α)
    (h : l1.find? p = some a) : (l1 ++ l2).find? p = some a := by
  rw [List.find?_append, h]
  rfl

theorem find?_append_right {α : Type} (p : α → Bool) (l1 l2 : List α)
    (h : l1.find? p = none) : (l1 ++ l2).find? p = l2.find? p := by
  rw [List.find?_append, h]
  rfl

/-- C5 (spec-modelled): the create-or-reuse invite workflow, after the
leader-token validation, either returns the existing valid shared
roster_entry link with reusedExisting true and an unchanged store, or
creates exactly one link and returns it with reusedExisting false; a
second call for the same group while the created link is valid returns
the same token with reusedExisting true and creates nothing. -/
theorem inviteCreateShared_idempotent :
    ∀ (now exp1 exp2 : Nat) (lt : String) (db : Db)
      (leader : InviteLink) (g : GroupPass),
      findInviteByToken db lt = some leader →
      leader.purpose = Purpose.leader_only →
      inviteExpired now leader.expiresAt = false →
      findGroupById db leader.groupId = some g →
      g.rosterStatus ≠ RosterStatus.locked →
      now < exp1 →
      ((∃ r, inviteCreateShared now exp1 lt db = .ok r) ∧
       (∀ (dbOut : Db) (res : InviteCreateResult),
         inviteCreateShared now exp1 lt db = .ok (dbOut, res) →
         ((res.reusedExisting = true → dbOut = db) ∧
          (res.reusedExisting = false →
            dbOut.invites.length = db.invites.length + 1 ∧
            inviteCreateShared now exp2 lt dbOut =
              .ok (dbOut, { token := res.token, reusedExisting := true }))))) := by
  intro now exp1 exp2 lt db leader g hf hp he hg hl hlt
  cases hsh : db.invites.find? (sharedLinkValid now leader.groupId) with
  | some ex =>
      have hrun : inviteCreateShared now exp1 lt db =
          .ok (db, { token := ex.token, reusedExisting := true }) := by
        unfold inviteCreateShared
        rw [hf]
        simp only [hp, ne_eq, not_true_eq_false, ite_false, he,
          Bool.false_eq_true, if_false, hg, if_neg hl, hsh]
      refine ⟨⟨_, hrun⟩, ?_⟩
      intro dbOut res hOk
      rw [hrun] at hOk
      injection hOk with hpair
      injection hpair with h1 h2
      subst h1
      subst h2
      refine ⟨fun _ => rfl, fun hff => ?_⟩
      exact absurd hff (by simp)
  | none =>
      have hrun : inviteCreateShared now exp1 lt db =
          .ok ({ db with
                 invites := db.invites ++ [mkSharedLink db leader.groupId exp1],
                 nextId := db.nextId + 2 },
               { token := (mkSharedLink db leader.groupId exp1).token,
                 reusedExisting := false }) := by
        unfold inviteCreateShared
        rw [hf]
        simp only [hp, ne_eq, not_true_eq_false, ite_false, he,
          Bool.false_eq_true, if_false, hg, if_neg hl, hsh]
      refine ⟨⟨_, hrun⟩, ?_⟩
      intro dbOut res hOk
      rw [hrun] at hOk
      injection hOk with hpair
      injection hpair with h1 h2
      subst h1
      subst h2
      refine ⟨fun htt => absurd htt (by simp), fun _ => ⟨?_, ?_⟩⟩
      · simp [List.length_append]
      · have hf2 : findInviteByToken
            { db with
              invites := db.invites ++ [mkSharedLink db leader.groupId exp1],
              nextId := db.nextId + 2 } lt = some leader := by
          unfold findInviteByToken at hf ⊢
          exact find?_append_left _ _ _ _ hf
        have hq : sharedLinkValid now leader.groupId
            (mkSharedLink db leader.groupId exp1) = true := by
          simp [sharedLinkValid, mkSharedLink, hlt]
          rfl
        have hsh2 : ({ db with
              invites := db.invites ++ [mkSharedLink db leader.groupId exp1],
              nextId := db.nextId + 2 } : Db).invites.find?
                (sharedLinkValid now leader.groupId) =
            some (mkSharedLink db leader.groupId exp1) := by
          show (db.invites ++ [mkSharedLink db leader.groupId exp1]).find?
              (sharedLinkValid now leader.groupId) =
            some (mkSharedLink db leader.groupId exp1)
          rw [find?_append_right _ _ _ hsh]
          exact List.find?_cons_of_pos _ hq
        unfold inviteCreateShared
        rw [hf2]
        simp only [hp, ne_eq, not_true_eq_false, ite_false, he,
          Bool.false_eq_true, if_false]
        rw [show findGroupById
              { db with
                invites := db.invites ++ [mkSharedLink db leader.groupId exp1],
                nextId := db.nextId + 2 } leader.groupId =
            findGroupById db leader.groupId from rfl, hg]
        simp only [if_neg hl, hsh2]

/-- Witness for C5: on the concrete leader-only store, the first call
creates the shared link and the second call reuses it. -/
theorem inviteCreateShared_idempotent_witness :
    (∃ r, inviteCreateShared 0 14 "lead1" wDbLeader = .ok r) ∧
    (∀ (dbOut : Db) (res : InviteCreateResult),
      inviteCreateShared 0 14 "lead1" wDbLeader = .ok (dbOut, res) →
      ((res.reusedExisting = true → dbOut = wDbLeader) ∧
       (res.reusedExisting = false →
         dbOut.invites.length = wDbLeader.invites.length + 1 ∧
         inviteCreateShared 0 21 "lead1" dbOut =
           .ok (dbOut, { token := res.token, reusedExisting := true })))) :=
  inviteCreateShared_idempotent 0 14 21 "lead1" wDbLeader wInviteLeader wGroupDraft
    (by decide) (by decide) (by decide) (by decide) (by decide) (by decide)

end WhyMe
